import Mathlib

/-!
# Verification of the HBnB facade / service layer

Shallow embedding of the business-logic layer of the `part2/hbnb` application:
the entity models (`app/models/*.py`), the repository behaviour
(`app/persistence/repository.py`, `repositories.py`) and the facade operations
(`app/services/facade.py`).

Modelling conventions:
* Python `datetime` timestamps are a logical clock (`Nat`); each operation that
  would call `datetime.utcnow()` receives the current tick `now` explicitly.
* `uuid.uuid4()` is modelled by passing the generated id as an explicit
  argument to each `create_*` operation.
* Python floats for `price` / `latitude` / `longitude` are modelled as `Rat`;
  the source only compares them against the literal bounds −90/90, −180/180, 0.
* The opaque bcrypt collaborator (`bcrypt.generate_password_hash`) is modelled
  by the stand-in `hash_password`, a deterministic tagging function; the claims
  only need "the stored digest is the hash of the supplied plaintext".
* A Python `dict` payload is modelled by a structure of `Option` fields
  (`d.field = none` ⟺ the key is absent), except for the generic repository
  `update` (claim about arbitrary `setattr` dictionaries), where a Python
  object and an update dictionary are both association lists over attribute
  names, mirroring `setattr` / `hasattr` semantics.
* `raise ValueError(msg)` is `Err.valueError msg`.  Database-level constraint
  violations raised by `session.commit()` (the `unique=True` columns of
  `users.email` and `amenities.name`, the primary keys, and the
  `unique_user_place_review` constraint of `reviews`, see the models) are
  `Err.integrityError constraintName`.  A facade operation returns its Python
  result together with the resulting store state; every `raise` in the source
  happens before the single mutation point (`add` / `commit`), so the state is
  returned unchanged alongside an error.
-/

deriving instance DecidableEq for Except

namespace HBnB

/-- Python attribute values appearing in the payloads and serialized dicts. -/
inductive Value where
  | str : String → Value
  | int : Int → Value
  | bool : Bool → Value
  | rat : Rat → Value
  | null : Value
deriving DecidableEq

/-- Errors surfaced by facade operations: `ValueError(msg)` raised by the code
itself, or an `IntegrityError` naming the database constraint that the
`session.commit()` inside `Repository.add` / `save` violated. -/
inductive Err where
  | valueError : String → Err
  | integrityError : String → Err
deriving DecidableEq

/-! ## Entity models (`app/models/*.py`) -/

/-- Embeds `User` (`app/models/user.py`): columns `first_name`, `last_name`, `email`
(unique), `password` (the bcrypt digest, or `""` when constructed without a
password), `is_admin`, plus the `BaseModel` columns. -/
structure User where
  id : String
  first_name : String
  last_name : String
  email : String
  password : String
  is_admin : Bool
  created_at : Nat
  updated_at : Nat
deriving DecidableEq

/-- Embeds `Place` (`app/models/place.py`).  `amenity_ids` models the `amenities`
relationship (the many-to-many association rows for this place). -/
structure Place where
  id : String
  title : String
  description : String
  price : Rat
  latitude : Option Rat
  longitude : Option Rat
  owner_id : String
  amenity_ids : List String
  created_at : Nat
  updated_at : Nat
deriving DecidableEq

/-- Embeds `Review` (`app/models/review.py`). -/
structure Review where
  id : String
  text : String
  rating : Int
  place_id : String
  user_id : String
  created_at : Nat
  updated_at : Nat
deriving DecidableEq

/-- Embeds `Amenity` (`app/models/amenity.py`). -/
structure Amenity where
  id : String
  name : String
  description : String
  created_at : Nat
  updated_at : Nat
deriving DecidableEq

/-- The four repositories held by `HBnBFacade.__init__`.  Each is the row set
of the corresponding table; `SQLAlchemyRepository.get` is primary-key lookup,
`get_by_attribute` / custom finders are equality scans (`filter_by`). -/
structure FacadeState where
  users : List User
  places : List Place
  reviews : List Review
  amenities : List Amenity
deriving DecidableEq

/-- The empty store a freshly constructed `HBnBFacade` sees. -/
def initState : FacadeState := ⟨[], [], [], []⟩

/-! ## User model functions -/

/-- Stand-in for the opaque bcrypt collaborator used by
`User.hash_password` (`user.py` lines 75-81): the stored digest is a
deterministic function of the plaintext. -/
def hash_password (plain : String) : String := "bcrypt$" ++ plain

/-- Character class `[a-zA-Z0-9._%+-]` of the local part of the email regex in
`User._is_valid_email` (`user.py` line 72). -/
def isLocalChar (c : Char) : Bool :=
  c.isAlpha || c.isDigit || c == '.' || c == '_' || c == '%' || c == '+' || c == '-'

/-- Character class `[a-zA-Z0-9.-]` of the domain part of the email regex. -/
def isDomainChar (c : Char) : Bool :=
  c.isAlpha || c.isDigit || c == '.' || c == '-'

/-- Embeds `User._is_valid_email` (`user.py` lines 62-73): the anchored regex
`[a-zA-Z0-9._%+-]+@[a-zA-Z0-9.-]+\.[a-zA-Z]{2,}`.  Neither character class
contains `@`, so a match forces exactly one `@`; the `[a-zA-Z]{2,}` tail
contains no dot, so the `\.` of the pattern must be the last dot of the
domain part. -/
def is_valid_email (email : String) : Bool :=
  match email.splitOn "@" with
  | [lp, dom] =>
      decide (0 < lp.length) && lp.toList.all isLocalChar &&
      (let rev := dom.toList.reverse
       let tldRev := rev.takeWhile (fun c => c != '.')
       decide (2 ≤ tldRev.length) && tldRev.all Char.isAlpha &&
       (match rev.drop tldRev.length with
        | '.' :: midRev => decide (0 < midRev.length) && midRev.all isDomainChar
        | _ => false))
  | _ => false

/-- Payload of `HBnBFacade.create_user`; `none` means the key is absent from
the dict (`user_data.get(...)` returns `None`). -/
structure UserCreateData where
  first_name : Option String
  last_name : Option String
  email : Option String
  password : Option String
  is_admin : Option Bool

/-- Embeds `User.__init__` plus `User._validate` (`user.py` lines 30-60).  The
constructor assigns the fields, hashes a non-falsy password (empty/missing
password stores `""`), and then validates: a missing (`None`) name behaves
like `""` because both are falsy and the length test is short-circuited; a
missing email reaches `re.match(pattern, None)`, which raises a `TypeError` —
kept as the distinct error message `"email is None"` so the branch stays
separate from the regex failure `"Invalid email format"`. -/
def mkUser (fn ln em pw : Option String) (adm : Bool) (uid : String) (now : Nat) :
    Except Err User :=
  if (fn.getD "") = "" ∨ 50 < (fn.getD "").length then
    .error (.valueError "First name is required and must be <= 50 characters")
  else if (ln.getD "") = "" ∨ 50 < (ln.getD "").length then
    .error (.valueError "Last name is required and must be <= 50 characters")
  else
    match em with
    | none => .error (.valueError "email is None")
    | some e =>
      if ¬ is_valid_email e then .error (.valueError "Invalid email format")
      else
        .ok { id := uid
              first_name := fn.getD ""
              last_name := ln.getD ""
              email := e
              password := match pw with
                          | some p => if p = "" then "" else hash_password p
                          | none => ""
              is_admin := adm
              created_at := now
              updated_at := now }

/-- Embeds `HBnBFacade.create_user` (`facade.py` lines 29-54): scan for an existing
user with the requested email (`get_by_attribute('email', ...)`), raise
`ValueError("Email already registered")` if found; otherwise construct the
`User` (validation may raise) and `add` it.  The `users.id` primary key is
enforced by the database at the insert. -/
def create_user (s : FacadeState) (d : UserCreateData) (uid : String) (now : Nat) :
    Except Err User × FacadeState :=
  match s.users.find? (fun u => some u.email == d.email) with
  | some _ => (.error (.valueError "Email already registered"), s)
  | none =>
    match mkUser d.first_name d.last_name d.email d.password (d.is_admin.getD false) uid now with
    | .error e => (.error e, s)
    | .ok u =>
      if s.users.any (fun x => x.id == u.id) then
        (.error (.integrityError "users.id"), s)
      else
        (.ok u, { s with users := s.users ++ [u] })

/-- Embeds `User.to_dict` (`user.py` lines 112-128): exactly the seven listed keys;
the `password` digest is never included. -/
def User.to_dict (u : User) : List (String × Value) :=
  [("id", .str u.id),
   ("first_name", .str u.first_name),
   ("last_name", .str u.last_name),
   ("email", .str u.email),
   ("is_admin", .bool u.is_admin),
   ("created_at", .str (toString u.created_at)),
   ("updated_at", .str (toString u.updated_at))]

/-! ## Place operations -/

/-- Payload of `HBnBFacade.create_place`. -/
structure PlaceCreateData where
  title : Option String
  description : Option String
  price : Option Rat
  latitude : Option Rat
  longitude : Option Rat
  owner_id : Option String
  amenities : List String

/-- Embeds `Place.__init__` plus `Place._validate` (`place.py` lines 46-82), with the
owner object already resolved by the facade (`owner_id := owner.id`).  A
missing (`None`) title behaves like `""`: both are falsy and the length test
is short-circuited.  The checks run in source order: title, price (missing or
negative), latitude bounds (only when supplied), longitude bounds (only when
supplied). -/
def mkPlace (title : Option String) (description : String) (price : Option Rat)
    (lat lng : Option Rat) (owner_id : String) (pid : String) (now : Nat) :
    Except Err Place :=
  if (title.getD "") = "" ∨ 100 < (title.getD "").length then
    .error (.valueError "Title is required and must be <= 100 characters")
  else
    match price with
    | none => .error (.valueError "Price must be a positive value")
    | some pr =>
      if pr < 0 then .error (.valueError "Price must be a positive value")
      else if (match lat with
               | some la => decide (la < -90) || decide (90 < la)
               | none => false) then
        .error (.valueError "Latitude must be between -90 and 90")
      else if (match lng with
               | some lo => decide (lo < -180) || decide (180 < lo)
               | none => false) then
        .error (.valueError "Longitude must be between -180 and 180")
      else
        .ok { id := pid
              title := title.getD ""
              description := description
              price := pr
              latitude := lat
              longitude := lng
              owner_id := owner_id
              amenity_ids := []
              created_at := now
              updated_at := now }

/-- The amenity loop of `HBnBFacade.create_place` (`facade.py` lines 158-163):
for each requested id, look it up in the amenity repository and, when found,
`Place.add_amenity` appends it unless already present. -/
def addAmenities (s : FacadeState) (p : Place) (ids : List String) : Place :=
  ids.foldl
    (fun pl aid =>
      match s.amenities.find? (fun a => a.id == aid) with
      | some a =>
        if pl.amenity_ids.any (fun x => x == a.id) then pl
        else { pl with amenity_ids := pl.amenity_ids ++ [a.id] }
      | none => pl)
    p

/-- Embeds `HBnBFacade.create_place` (`facade.py` lines 132-166): resolve the owner
(raise `ValueError("Owner not found")` if absent), construct the `Place`
(entity validation may raise), attach the requested amenities, then `add`. -/
def create_place (s : FacadeState) (d : PlaceCreateData) (pid : String) (now : Nat) :
    Except Err Place × FacadeState :=
  match s.users.find? (fun u => some u.id == d.owner_id) with
  | none => (.error (.valueError "Owner not found"), s)
  | some owner =>
    match mkPlace d.title (d.description.getD "") d.price d.latitude d.longitude
        owner.id pid now with
    | .error e => (.error e, s)
    | .ok p =>
      let p := addAmenities s p d.amenities
      if s.places.any (fun x => x.id == p.id) then
        (.error (.integrityError "places.id"), s)
      else
        (.ok p, { s with places := s.places ++ [p] })

/-- Embeds `HBnBFacade.delete_place` → `SQLAlchemyRepository.delete` (`facade.py`
lines 218-227, `repository.py` lines 241-255): if a place row with that id
exists, `session.delete` removes it and — through the
`cascade='all, delete-orphan'` option of the `Place.reviews` relationship
(`place.py` lines 40-41) — every review row whose `place_id` references it,
returning `True`; otherwise `False` and no change. -/
def delete_place (s : FacadeState) (pid : String) : Bool × FacadeState :=
  if s.places.any (fun p => p.id == pid) then
    (true, { s with
              places := s.places.filter (fun p => !(p.id == pid))
              reviews := s.reviews.filter (fun r => !(r.place_id == pid)) })
  else (false, s)

/-- Embeds `HBnBFacade.get_reviews_by_place` → `ReviewRepository.get_reviews_by_place`
(`repositories.py` lines 55-64): `filter_by(place_id=place_id).all()`. -/
def get_reviews_by_place (s : FacadeState) (pid : String) : List Review :=
  s.reviews.filter (fun r => r.place_id == pid)

/-! ## Review operations -/

/-- Payload of `HBnBFacade.create_review` (the HTTP layer copies the JWT
identity into `user_id` before calling the facade). -/
structure ReviewCreateData where
  text : Option String
  rating : Option Int
  place_id : Option String
  user_id : Option String

/-- Embeds `Review.__init__` plus `Review._validate` (`review.py` lines 31-65), with
the place and user objects already resolved by the facade (`place_id :=
place.id`, `user_id := user.id`).  Checks in source order: falsy text, missing
or out-of-range rating, falsy `place_id`, falsy `user_id`. -/
def mkReview (text : Option String) (rating : Option Int)
    (place_id user_id : String) (rid : String) (now : Nat) : Except Err Review :=
  if (text.getD "") = "" then .error (.valueError "Review text is required")
  else
    match rating with
    | none => .error (.valueError "Rating must be between 1 and 5")
    | some rt =>
      if rt < 1 ∨ 5 < rt then .error (.valueError "Rating must be between 1 and 5")
      else if place_id = "" then .error (.valueError "Place is required")
      else if user_id = "" then .error (.valueError "User is required")
      else
        .ok { id := rid
              text := text.getD ""
              rating := rt
              place_id := place_id
              user_id := user_id
              created_at := now
              updated_at := now }

/-- Embeds `HBnBFacade.create_review` (`facade.py` lines 231-266): look up the place
and the user; raise `"Place not found"`, then `"User not found"`; raise
`"Cannot review your own place"` when `place.owner_id == user_id` (the raw
payload value); construct the `Review` (entity validation may raise); then
`review_repo.add`, whose `session.commit()` enforces the
`unique_user_place_review` constraint of the reviews table (`review.py` lines
26-29) and its primary key. -/
def create_review (s : FacadeState) (d : ReviewCreateData) (rid : String) (now : Nat) :
    Except Err Review × FacadeState :=
  match s.places.find? (fun p => some p.id == d.place_id) with
  | none => (.error (.valueError "Place not found"), s)
  | some place =>
    match s.users.find? (fun u => some u.id == d.user_id) with
    | none => (.error (.valueError "User not found"), s)
    | some user =>
      if some place.owner_id == d.user_id then
        (.error (.valueError "Cannot review your own place"), s)
      else
        match mkReview d.text d.rating place.id user.id rid now with
        | .error e => (.error e, s)
        | .ok r =>
          if s.reviews.any (fun x => x.user_id == r.user_id && x.place_id == r.place_id) then
            (.error (.integrityError "unique_user_place_review"), s)
          else if s.reviews.any (fun x => x.id == r.id) then
            (.error (.integrityError "reviews.id"), s)
          else
            (.ok r, { s with reviews := s.reviews ++ [r] })

/-- Payload of `HBnBFacade.update_review`.  The structure also carries the
identity/foreign-key keys a caller may try to smuggle in, so that the theorems
can quantify over payloads that do supply them; the facade loop
(`facade.py` lines 312-315) reads only `'text'` and `'rating'`. -/
structure ReviewUpdateData where
  text : Option String
  rating : Option Int
  user_id : Option String
  place_id : Option String
  id : Option String

/-- Embeds `HBnBFacade.update_review` (`facade.py` lines 298-318): load the review
(`None` when absent), apply only the `'text'` and `'rating'` keys of the
payload, then `review.save()` refreshes `updated_at` and commits the row. -/
def update_review (s : FacadeState) (rid : String) (d : ReviewUpdateData) (now : Nat) :
    Option Review × FacadeState :=
  match s.reviews.find? (fun r => r.id == rid) with
  | none => (none, s)
  | some r =>
    let r2 : Review :=
      { r with
        text := d.text.getD r.text
        rating := d.rating.getD r.rating
        updated_at := now }
    (some r2, { s with reviews := s.reviews.map (fun x => if x.id == r.id then r2 else x) })

/-! ## Amenity operations -/

/-- Payload of `HBnBFacade.create_amenity`. -/
structure AmenityCreateData where
  name : Option String
  description : Option String

/-- Embeds `Amenity.__init__` plus `Amenity._validate` (`amenity.py` lines 19-35). -/
def mkAmenity (name : Option String) (description : String) (aid : String) (now : Nat) :
    Except Err Amenity :=
  if (name.getD "") = "" ∨ 50 < (name.getD "").length then
    .error (.valueError "Amenity name is required and must be <= 50 characters")
  else
    .ok { id := aid
          name := name.getD ""
          description := description
          created_at := now
          updated_at := now }

/-- Embeds `HBnBFacade.create_amenity` (`facade.py` lines 333-347): construct the
`Amenity` (entity validation may raise) and `add` it.  The facade performs no
explicit duplicate-name scan; uniqueness of `amenities.name` is the
`unique=True` column constraint (`amenity.py` line 16) enforced by the
`session.commit()` inside `add`, together with the primary key. -/
def create_amenity (s : FacadeState) (d : AmenityCreateData) (aid : String) (now : Nat) :
    Except Err Amenity × FacadeState :=
  match mkAmenity d.name (d.description.getD "") aid now with
  | .error e => (.error e, s)
  | .ok a =>
    if s.amenities.any (fun x => x.name == a.name) then
      (.error (.integrityError "amenities.name"), s)
    else if s.amenities.any (fun x => x.id == a.id) then
      (.error (.integrityError "amenities.id"), s)
    else
      (.ok a, { s with amenities := s.amenities ++ [a] })

/-- Payload of `HBnBFacade.update_amenity`, restricted to the entity's
business fields applied by its `hasattr`-guarded `setattr` loop. -/
structure AmenityUpdateData where
  name : Option String
  description : Option String

/-- Embeds `HBnBFacade.update_amenity` (`facade.py` lines 368-387): load the amenity
(`None` when absent), apply the supplied fields, then `amenity.save()`
refreshes `updated_at` and commits; the commit enforces the `amenities.name`
unique constraint against the other rows, leaving the store unchanged when it
fires. -/
def update_amenity (s : FacadeState) (aid : String) (d : AmenityUpdateData) (now : Nat) :
    Except Err (Option Amenity) × FacadeState :=
  match s.amenities.find? (fun a => a.id == aid) with
  | none => (.ok none, s)
  | some a =>
    let a2 : Amenity :=
      { a with
        name := d.name.getD a.name
        description := d.description.getD a.description
        updated_at := now }
    if s.amenities.any (fun x => !(x.id == a.id) && x.name == a2.name) then
      (.error (.integrityError "amenities.name"), s)
    else
      (.ok (some a2),
       { s with amenities := s.amenities.map (fun x => if x.id == a.id then a2 else x) })

/-- Embeds `HBnBFacade.delete_amenity` (`facade.py` lines 389-398). -/
def delete_amenity (s : FacadeState) (aid : String) : Bool × FacadeState :=
  if s.amenities.any (fun a => a.id == aid) then
    (true, { s with amenities := s.amenities.filter (fun a => !(a.id == aid)) })
  else (false, s)

/-- The facade operations that write the amenity store (no other facade
method mutates it), for stating the global amenity-name uniqueness
invariant. -/
inductive AmenityOp where
  | create (d : AmenityCreateData) (aid : String) (now : Nat)
  | update (aid : String) (d : AmenityUpdateData) (now : Nat)
  | del (aid : String)

/-- Effect of one amenity-writing facade operation on the store. -/
def applyAmenityOp (s : FacadeState) : AmenityOp → FacadeState
  | .create d aid now => (create_amenity s d aid now).2
  | .update aid d now => (update_amenity s aid d now).2
  | .del aid => (delete_amenity s aid).2

/-- A sequence of amenity-writing facade operations. -/
def runAmenityOps (s : FacadeState) (ops : List AmenityOp) : FacadeState :=
  ops.foldl applyAmenityOp s

/-- Pairwise distinctness of amenity names. -/
def amenityNamesUnique (l : List Amenity) : Prop :=
  l.Pairwise (fun a b => a.name ≠ b.name)

/-- Pairwise distinctness of amenity ids (the `amenities.id` primary key). -/
def amenityIdsUnique (l : List Amenity) : Prop :=
  l.Pairwise (fun a b => a.id ≠ b.id)

/-! ## User update -/

/-- Payload of `HBnBFacade.update_user`, restricted to the user's business
fields applied by its explicit password handling and `hasattr`-guarded
`setattr` loop. -/
structure UserUpdateData where
  first_name : Option String
  last_name : Option String
  email : Option String
  password : Option String
  is_admin : Option Bool

/-- The email-uniqueness pre-check of `HBnBFacade.update_user` (`facade.py`
lines 100-105): it fires exactly when the payload supplies an `'email'` key
whose value differs from the current email and some user row already holds
that email. -/
def emailConflict (users : List User) (user : User) (em : Option String) : Bool :=
  match em with
  | none => false
  | some e => !(e == user.email) && users.any (fun x => x.email == e)

/-- Embeds `HBnBFacade.update_user` (`facade.py` lines 86-117): load the user
(`None` when absent, nothing touched); run the email pre-check (raising
`"Email already registered"` before any mutation); hash a supplied plaintext
password into the digest (`user.hash_password`, the key is popped before the
field loop); apply the remaining supplied fields; `user.save()` refreshes
`updated_at` and commits the row. -/
def update_user (s : FacadeState) (uid : String) (d : UserUpdateData) (now : Nat) :
    Except Err (Option User) × FacadeState :=
  match s.users.find? (fun u => u.id == uid) with
  | none => (.ok none, s)
  | some user =>
    if emailConflict s.users user d.email then
      (.error (.valueError "Email already registered"), s)
    else
      let u1 : User :=
        match d.password with
        | some p => { user with password := hash_password p }
        | none => user
      let u3 : User :=
        { u1 with
          first_name := d.first_name.getD u1.first_name
          last_name := d.last_name.getD u1.last_name
          email := d.email.getD u1.email
          is_admin := d.is_admin.getD u1.is_admin
          updated_at := now }
      (.ok (some u3), { s with users := s.users.map (fun x => if x.id == user.id then u3 else x) })

/-! ## Generic repository `update` (`app/persistence/repository.py`)

The two `Repository.update` implementations are dynamic `setattr` loops over
arbitrary entities, so here an entity is modelled the Python way: an
association list from attribute names to values (`PyObj`), with `getattr` /
`hasattr` / `setattr` as list operations.  A store is an association list from
primary key to object (the `_storage` dict of the in-memory implementation;
the table keyed by primary key for the durable one). -/

/-- A Python object as seen by `setattr`/`hasattr`: its attribute dictionary.
`created_at` / `updated_at` are ordinary entries of the dictionary. -/
structure PyObj where
  attrs : List (String × Value)
deriving DecidableEq

/-- Embeds `getattr(o, k, None)` as an optional lookup. -/
def pyGetattr (o : PyObj) (k : String) : Option Value := o.attrs.lookup k

/-- Embeds `hasattr(o, k)`. -/
def pyHasattr (o : PyObj) (k : String) : Bool := (o.attrs.lookup k).isSome

/-- Embeds `setattr(o, k, v)`: overwrite the attribute when present, add it
otherwise. -/
def pySetattr (o : PyObj) (k : String) (v : Value) : PyObj :=
  if pyHasattr o k then
    ⟨o.attrs.map (fun kv => if kv.1 == k then (kv.1, v) else kv)⟩
  else ⟨o.attrs ++ [(k, v)]⟩

/-- The shared `setattr` loop of `BaseModel.update` (`models/__init__.py`
lines 48-50) and `SQLAlchemyRepository.update` (`repository.py` lines
234-236): apply each supplied key the object has. -/
def applyFields (o : PyObj) (data : List (String × Value)) : PyObj :=
  data.foldl (fun acc kv => if pyHasattr acc kv.1 then pySetattr acc kv.1 kv.2 else acc) o

/-- Embeds `InMemoryRepository.update` (`repository.py` lines 112-126): dict lookup
by key; when found, `obj.update(data)` (`models/__init__.py` lines 42-51)
applies the supplied fields and then `save()` unconditionally sets
`updated_at` to the current time.  The object is mutated in place, so the
stored entry is the updated object.  Returns the updated object, or `none`
with the store untouched. -/
def inmemory_update (storage : List (String × PyObj)) (oid : String)
    (data : List (String × Value)) (now : Nat) :
    Option PyObj × List (String × PyObj) :=
  match storage.lookup oid with
  | none => (none, storage)
  | some o =>
    let o2 := pySetattr (applyFields o data) "updated_at" (.int now)
    (some o2, storage.map (fun kv => if kv.1 == oid then (kv.1, o2) else kv))

/-- Embeds `SQLAlchemyRepository.update` (`repository.py` lines 222-239): primary-key
lookup; when found, apply the supplied fields and `session.commit()`.  The
flush performs net-change detection: a column is included in the UPDATE
statement only when its new value differs (by equality) from the committed
value loaded with the object, an UPDATE is issued only when at least one
column is included, and the `onupdate=datetime.utcnow` hook of the
`updated_at` column (`models/__init__.py` line 23) fires only when an UPDATE
is issued without that column itself among the included ones.  In particular,
setting attributes to their stored values issues no UPDATE and refreshes
nothing.  Returns the updated object, or `none` with the store untouched. -/
def sqlalchemy_update (storage : List (String × PyObj)) (oid : String)
    (data : List (String × Value)) (now : Nat) :
    Option PyObj × List (String × PyObj) :=
  match storage.lookup oid with
  | none => (none, storage)
  | some o =>
    let o1 := applyFields o data
    let changed := fun (k : String) => !(pyGetattr o1 k == pyGetattr o k)
    let dirty := data.any (fun kv => changed kv.1)
    let touchedStamp := changed "updated_at"
    let o2 := if dirty && !touchedStamp then pySetattr o1 "updated_at" (.int now) else o1
    (some o2, storage.map (fun kv => if kv.1 == oid then (kv.1, o2) else kv))

/-! ## Theorems -/

/-- C9: for every Account, the serialized output `User.to_dict` never contains
the password digest — the `'password'` key is absent from the produced
dictionary for all field values. -/
theorem to_dict_omits_password (u : User) :
    (User.to_dict u).lookup "password" = none := rfl

/-- C6: after `HBnBFacade.delete_place(place_id)` returns `true`, every Review
whose `place_id` referenced that Listing is unreachable:
`get_reviews_by_place(place_id)` returns the empty sequence. -/
theorem delete_place_cascades_reviews (s : FacadeState) (pid : String)
    (h : (delete_place s pid).1 = true) :
    get_reviews_by_place (delete_place s pid).2 pid = [] := by
  unfold delete_place at h ⊢
  split at h
  · next hex =>
    simp only [hex, if_true, get_reviews_by_place]
    simp [List.filter_filter]
  · simp at h

/-- C6 witness: a concrete store with one place and one review of it; the
deletion succeeds and afterwards no review of the place is reachable. -/
theorem delete_place_cascades_reviews_witness :
    get_reviews_by_place
      (delete_place
        ⟨[⟨"u1", "Ann", "Lee", "a@b.com", "", false, 0, 0⟩],
         [⟨"p1", "House", "", 10, none, none, "u1", [], 0, 0⟩],
         [⟨"r1", "nice", 5, "p1", "u2", 0, 0⟩], []⟩ "p1").2 "p1" = [] :=
  delete_place_cascades_reviews _ "p1" (by decide)

/-- C10: `HBnBFacade.update_review` changes at most the `text` and `rating`
fields of an existing Review: its `user_id`, `place_id` and `id` are unchanged
by the call even when the payload supplies values for them (the source loop
reads only the `'text'` and `'rating'` keys). -/
theorem update_review_frame (s : FacadeState) (rid : String)
    (d : ReviewUpdateData) (now : Nat) (r : Review)
    (h : s.reviews.find? (fun x => x.id == rid) = some r) :
    ∃ r2 s2, update_review s rid d now = (some r2, s2)
      ∧ r2.user_id = r.user_id
      ∧ r2.place_id = r.place_id
      ∧ r2.id = r.id
      ∧ r2.created_at = r.created_at
      ∧ r2.text = d.text.getD r.text
      ∧ r2.rating = d.rating.getD r.rating := by
  unfold update_review
  rw [h]
  exact ⟨_, _, rfl, rfl, rfl, rfl, rfl, rfl, rfl⟩

/-- C10 witness: a payload supplying `user_id`, `place_id` and `id` leaves all
three untouched on the stored review. -/
theorem update_review_frame_witness :
    ∃ r2 s2,
      update_review
        ⟨[], [], [⟨"r1", "nice", 5, "p1", "u2", 0, 0⟩], []⟩
        "r1" ⟨some "new", none, some "EVIL", some "EVIL", some "EVIL"⟩ 3 = (some r2, s2)
      ∧ r2.user_id = "u2" ∧ r2.place_id = "p1" ∧ r2.id = "r1"
      ∧ r2.created_at = 0 ∧ r2.text = "new" ∧ r2.rating = 5 :=
  update_review_frame _ "r1" _ 3 ⟨"r1", "nice", 5, "p1", "u2", 0, 0⟩ (by decide)

/-- C3: for every Review-creation request where the requesting user's id
equals the `owner_id` of the referenced Listing (both existing),
`HBnBFacade.create_review` reports the self-reference error
`"Cannot review your own place"` and leaves the store unchanged — the raise
happens before the Review is constructed or persisted. -/
theorem create_review_rejects_self_review (s : FacadeState) (d : ReviewCreateData)
    (rid : String) (now : Nat) (place : Place) (user : User)
    (hp : s.places.find? (fun p => some p.id == d.place_id) = some place)
    (hu : s.users.find? (fun u => some u.id == d.user_id) = some user)
    (hown : user.id = place.owner_id) :
    create_review s d rid now = (.error (.valueError "Cannot review your own place"), s) := by
  have hid := List.find?_some hu
  simp only at hid
  have hguard : (some place.owner_id == d.user_id) = true := by rw [← hown]; exact hid
  unfold create_review
  rw [hp, hu]
  simp only [hguard, if_true]

/-- C3 witness: owner `"u1"` of place `"p1"` attempts a review of it and is
rejected with the self-reference error, the store unchanged. -/
theorem create_review_rejects_self_review_witness :
    create_review
      ⟨[⟨"u1", "Ann", "Lee", "a@b.com", "", false, 0, 0⟩],
       [⟨"p1", "House", "", 10, none, none, "u1", [], 0, 0⟩], [], []⟩
      ⟨some "t", some 5, some "p1", some "u1"⟩ "r2" 1 =
    (.error (.valueError "Cannot review your own place"),
     ⟨[⟨"u1", "Ann", "Lee", "a@b.com", "", false, 0, 0⟩],
      [⟨"p1", "House", "", 10, none, none, "u1", [], 0, 0⟩], [], []⟩) :=
  create_review_rejects_self_review _ _ "r2" 1
    ⟨"p1", "House", "", 10, none, none, "u1", [], 0, 0⟩
    ⟨"u1", "Ann", "Lee", "a@b.com", "", false, 0, 0⟩
    (by decide) (by decide) rfl

/-! ### C4: email uniqueness of `create_user` -/

/-- One call to `HBnBFacade.create_user` (payload, generated id, clock). -/
structure UserCreateCall where
  d : UserCreateData
  uid : String
  now : Nat

/-- A sequence of `create_user` calls, applied to the store in order. -/
def runUserCreates (s : FacadeState) (calls : List UserCreateCall) : FacadeState :=
  calls.foldl (fun st c => (create_user st c.d c.uid c.now).2) s

/-- A `User` accepted by the constructor carries exactly the requested
email. -/
theorem mkUser_email {fn ln em pw : Option String} {adm : Bool} {uid : String}
    {now : Nat} {u : User} (h : mkUser fn ln em pw adm uid now = .ok u) :
    em = some u.email := by
  unfold mkUser at h
  split at h
  · simp at h
  · split at h
    · simp at h
    · split at h
      · simp at h
      · next e =>
        split at h
        · simp at h
        · simp only [Except.ok.injEq] at h
          subst h
          rfl

/-- Lemma: `create_user` never takes the count of stored accounts holding a given
email above one: the duplicate pre-check refuses the insert whenever the email
is already present. -/
theorem create_user_countP_le (s : FacadeState) (d : UserCreateData) (uid : String)
    (now : Nat) (E : String)
    (h : s.users.countP (fun x => x.email == E) ≤ 1) :
    (create_user s d uid now).2.users.countP (fun x => x.email == E) ≤ 1 := by
  unfold create_user
  cases hfind : s.users.find? (fun u => some u.email == d.email) with
  | some v => simpa using h
  | none =>
    cases hmk : mkUser d.first_name d.last_name d.email d.password
        (d.is_admin.getD false) uid now with
    | error e => simpa using h
    | ok u =>
      dsimp only
      by_cases hany : (s.users.any (fun x => x.id == u.id)) = true
      · rw [if_pos hany]
        simpa using h
      · rw [if_neg hany]
        simp only [List.countP_append]
        by_cases hE : u.email = E
        · have hzero : s.users.countP (fun x => x.email == E) = 0 := by
            rw [List.countP_eq_zero]
            intro x hx
            have hne := List.find?_eq_none.mp hfind x hx
            rw [mkUser_email hmk] at hne
            simp only [Option.some.injEq, beq_iff_eq] at hne ⊢
            exact fun hc => hne (hc.trans hE.symm)
          rw [hzero]
          simp [List.countP_cons, hE]
        · have h1 : ([u].countP (fun x => x.email == E)) = 0 := by
            simp [List.countP_cons, hE]
          rw [h1]
          omega

/-- After any sequence of `create_user` calls starting from a store in which
each email is held by at most one account, each email is still held by at most
one account. -/
theorem runUserCreates_countP_le (calls : List UserCreateCall) (s : FacadeState)
    (E : String) (h : s.users.countP (fun x => x.email == E) ≤ 1) :
    (runUserCreates s calls).users.countP (fun x => x.email == E) ≤ 1 := by
  induction calls generalizing s with
  | nil => exact h
  | cons c cs ih =>
    simp only [runUserCreates, List.foldl_cons]
    exact ih _ (create_user_countP_le _ _ _ _ _ h)

/-- C4: whenever an Account with email `E` already exists, a further
`HBnBFacade.create_user` call with email `E` reports the duplicate error
`"Email already registered"` and leaves the store unchanged; consequently,
starting from the empty store, after any sequence of `create_user` calls at
most one Account holds any given email. -/
theorem create_user_email_unique (s : FacadeState) (d : UserCreateData)
    (uid : String) (now : Nat) (u : User)
    (hu : u ∈ s.users) (he : d.email = some u.email) :
    create_user s d uid now = (.error (.valueError "Email already registered"), s)
    ∧ ∀ (calls : List UserCreateCall) (E : String),
        ((runUserCreates initState calls).users.countP (fun x => x.email == E)) ≤ 1 := by
  constructor
  · have hsome : (s.users.find? (fun x => some x.email == d.email)).isSome := by
      rw [List.find?_isSome]
      exact ⟨u, hu, by simp [he]⟩
    obtain ⟨v, hv⟩ := Option.isSome_iff_exists.mp hsome
    unfold create_user
    rw [hv]
  · intro calls E
    exact runUserCreates_countP_le calls initState E (by simp [initState])

/-- C4 witness: with `"a@b.com"` already registered, a second registration of
`"a@b.com"` fails with the duplicate error and the store is unchanged. -/
theorem create_user_email_unique_witness :
    create_user
      ⟨[⟨"u1", "Ann", "Lee", "a@b.com", "", false, 0, 0⟩], [], [], []⟩
      ⟨some "X", some "Y", some "a@b.com", none, none⟩ "u2" 1 =
    (.error (.valueError "Email already registered"),
     ⟨[⟨"u1", "Ann", "Lee", "a@b.com", "", false, 0, 0⟩], [], [], []⟩) :=
  (create_user_email_unique _ _ "u2" 1
    ⟨"u1", "Ann", "Lee", "a@b.com", "", false, 0, 0⟩ (by decide) rfl).1

/-! ### C5: eager validation of Listing creation -/

/-- The four `ValueError` messages of `Place._validate`. -/
def placeValidationMsgs : List String :=
  ["Title is required and must be <= 100 characters",
   "Price must be a positive value",
   "Latitude must be between -90 and 90",
   "Longitude must be between -180 and 180"]

/-- Lemma: `Place` construction rejects any payload with an empty or over-length
title, a negative price, an out-of-range latitude, or an out-of-range
longitude, raising one of the `_validate` messages. -/
theorem mkPlace_rejects_invalid (title : Option String) (description : String)
    (price : Option Rat) (lat lng : Option Rat) (oid pid : String) (now : Nat)
    (hbad : (title.getD "" = "" ∨ 100 < (title.getD "").length)
          ∨ (∃ pr, price = some pr ∧ pr < 0)
          ∨ (∃ la, lat = some la ∧ (la < -90 ∨ 90 < la))
          ∨ (∃ lo, lng = some lo ∧ (lo < -180 ∨ 180 < lo))) :
    ∃ msg, mkPlace title description price lat lng oid pid now
        = .error (.valueError msg) ∧ msg ∈ placeValidationMsgs := by
  unfold mkPlace
  by_cases ht : title.getD "" = "" ∨ 100 < (title.getD "").length
  · rw [if_pos ht]
    exact ⟨_, rfl, by simp [placeValidationMsgs]⟩
  · rw [if_neg ht]
    rcases hbad with hbad | ⟨pr, hpr, hprlt⟩ | ⟨la, hla, hlab⟩ | ⟨lo, hlo, hlob⟩
    · exact absurd hbad ht
    · rw [hpr]
      dsimp only
      rw [if_pos hprlt]
      exact ⟨_, rfl, by simp [placeValidationMsgs]⟩
    · cases price with
      | none => exact ⟨_, rfl, by simp [placeValidationMsgs]⟩
      | some pr =>
        dsimp only
        by_cases hprlt : pr < 0
        · rw [if_pos hprlt]
          exact ⟨_, rfl, by simp [placeValidationMsgs]⟩
        · rw [if_neg hprlt, hla]
          have : (decide (la < -90) || decide (90 < la)) = true := by
            rcases hlab with hl | hl <;> simp [hl]
          rw [if_pos this]
          exact ⟨_, rfl, by simp [placeValidationMsgs]⟩
    · cases price with
      | none => exact ⟨_, rfl, by simp [placeValidationMsgs]⟩
      | some pr =>
        dsimp only
        by_cases hprlt : pr < 0
        · rw [if_pos hprlt]
          exact ⟨_, rfl, by simp [placeValidationMsgs]⟩
        · rw [if_neg hprlt]
          by_cases hlat : (match lat with
                           | some la => decide (la < -90) || decide (90 < la)
                           | none => false) = true
          · rw [if_pos hlat]
            exact ⟨_, rfl, by simp [placeValidationMsgs]⟩
          · rw [if_neg hlat, hlo]
            have : (decide (lo < -180) || decide (180 < lo)) = true := by
              rcases hlob with hl | hl <;> simp [hl]
            rw [if_pos this]
            exact ⟨_, rfl, by simp [placeValidationMsgs]⟩

/-- C5: for every Listing-creation payload whose owner resolves but whose
fields violate a range/length rule (latitude outside [-90, 90], longitude
outside [-180, 180], negative price, empty or over-length title),
`HBnBFacade.create_place` reports the corresponding `ValueError` raised by
`Place._validate` during entity construction, and the store — in particular
the place repository — is returned unchanged: the failure precedes the
`place_repo.add` write. -/
theorem create_place_rejects_invalid (s : FacadeState) (d : PlaceCreateData)
    (pid : String) (now : Nat) (owner : User)
    (ho : s.users.find? (fun u => some u.id == d.owner_id) = some owner)
    (hbad : (d.title.getD "" = "" ∨ 100 < (d.title.getD "").length)
          ∨ (∃ pr, d.price = some pr ∧ pr < 0)
          ∨ (∃ la, d.latitude = some la ∧ (la < -90 ∨ 90 < la))
          ∨ (∃ lo, d.longitude = some lo ∧ (lo < -180 ∨ 180 < lo))) :
    ∃ msg, create_place s d pid now = (.error (.valueError msg), s)
      ∧ msg ∈ placeValidationMsgs := by
  obtain ⟨msg, hmk, hmem⟩ := mkPlace_rejects_invalid d.title (d.description.getD "")
    d.price d.latitude d.longitude owner.id pid now hbad
  refine ⟨msg, ?_, hmem⟩
  unfold create_place
  rw [ho]
  dsimp only
  rw [hmk]

/-- C5 witness: latitude 91 with an existing owner is rejected with the
latitude message and nothing is persisted. -/
theorem create_place_rejects_invalid_witness :
    ∃ msg, create_place
        ⟨[⟨"u1", "Ann", "Lee", "a@b.com", "", false, 0, 0⟩], [], [], []⟩
        ⟨some "T", none, some 5, some 91, none, some "u1", []⟩ "p2" 1 =
      (.error (.valueError msg),
       ⟨[⟨"u1", "Ann", "Lee", "a@b.com", "", false, 0, 0⟩], [], [], []⟩)
      ∧ msg ∈ placeValidationMsgs :=
  create_place_rejects_invalid _ _ "p2" 1
    ⟨"u1", "Ann", "Lee", "a@b.com", "", false, 0, 0⟩ (by decide)
    (Or.inr (Or.inr (Or.inl ⟨91, rfl, Or.inr (by norm_num)⟩)))

/-! ### C1: the four Review-creation checks and their order -/

/-- Lemma: `Review` construction succeeds on well-formed entity data (non-empty text,
rating between 1 and 5, non-falsy ids). -/
theorem mkReview_ok (text : Option String) (rt : Int) (pid uid rid : String)
    (now : Nat) (htext : text.getD "" ≠ "") (h1 : 1 ≤ rt) (h5 : rt ≤ 5)
    (hpid : pid ≠ "") (huid : uid ≠ "") :
    mkReview text (some rt) pid uid rid now =
      .ok ⟨rid, text.getD "", rt, pid, uid, now, now⟩ := by
  unfold mkReview
  rw [if_neg htext]
  dsimp only
  rw [if_neg (by omega : ¬(rt < 1 ∨ 5 < rt)), if_neg hpid, if_neg huid]

/-- C1: on a Review-creation payload whose entity data is well formed,
`HBnBFacade.create_review` evaluates the four cross-entity checks in order —
(1) the Listing exists, (2) the Account exists, (3) the Account is not the
Listing's owner, (4) no Review for that (Account, Listing) pair exists, the
last being the `unique_user_place_review` constraint enforced when the facade
persists via `review_repo.add` — and the first failing check determines the
reported error; in particular a request passing checks 1-3 but failing check 4
is rejected with the duplicate-uniqueness error and the store is returned
unchanged: no Review is persisted. -/
theorem create_review_checks (s : FacadeState) (d : ReviewCreateData)
    (rid : String) (now : Nat)
    (htext : d.text.getD "" ≠ "")
    (hrating : ∃ rt, d.rating = some rt ∧ 1 ≤ rt ∧ rt ≤ 5) :
    (s.places.find? (fun p => some p.id == d.place_id) = none →
       create_review s d rid now = (.error (.valueError "Place not found"), s))
  ∧ (∀ place, s.places.find? (fun p => some p.id == d.place_id) = some place →
       s.users.find? (fun u => some u.id == d.user_id) = none →
       create_review s d rid now = (.error (.valueError "User not found"), s))
  ∧ (∀ place user, s.places.find? (fun p => some p.id == d.place_id) = some place →
       s.users.find? (fun u => some u.id == d.user_id) = some user →
       place.owner_id = user.id →
       create_review s d rid now = (.error (.valueError "Cannot review your own place"), s))
  ∧ (∀ place user, s.places.find? (fun p => some p.id == d.place_id) = some place →
       s.users.find? (fun u => some u.id == d.user_id) = some user →
       place.owner_id ≠ user.id → place.id ≠ "" → user.id ≠ "" →
       (s.reviews.any (fun x => x.user_id == user.id && x.place_id == place.id)) = true →
       create_review s d rid now = (.error (.integrityError "unique_user_place_review"), s)) := by
  obtain ⟨rt, hrt, h1, h5⟩ := hrating
  refine ⟨?_, ?_, ?_, ?_⟩
  · intro h
    unfold create_review
    rw [h]
  · intro place hp hu
    unfold create_review
    rw [hp]
    dsimp only
    rw [hu]
  · intro place user hp hu heq
    have hid := List.find?_some hu
    simp only at hid
    have huser : d.user_id = some user.id := (beq_iff_eq.mp hid).symm
    have hguard : (some place.owner_id == d.user_id) = true := by
      rw [huser, heq]
      simp
    unfold create_review
    rw [hp]
    dsimp only
    rw [hu]
    dsimp only
    rw [if_pos hguard]
  · intro place user hp hu hne hpid huid hdup
    have hid := List.find?_some hu
    simp only at hid
    have huser : d.user_id = some user.id := (beq_iff_eq.mp hid).symm
    have hguard : ¬((some place.owner_id == d.user_id) = true) := by
      rw [huser]
      simp only [beq_iff_eq, Option.some.injEq]
      exact hne
    unfold create_review
    rw [hp]
    dsimp only
    rw [hu]
    dsimp only
    rw [if_neg hguard, hrt, mkReview_ok d.text rt place.id user.id rid now htext h1 h5 hpid huid]
    dsimp only
    rw [if_pos hdup]

/-- C1 witness: place and user exist, the user is not the owner, and a review
by that user of that place is already stored; the call is rejected with the
duplicate-uniqueness constraint error and the store is unchanged. -/
theorem create_review_checks_witness :
    create_review
      ⟨[⟨"u1", "Ann", "Lee", "a@b.com", "", false, 0, 0⟩,
        ⟨"u2", "Bob", "Kim", "b@b.com", "", false, 0, 0⟩],
       [⟨"p1", "House", "", 10, none, none, "u1", [], 0, 0⟩],
       [⟨"r1", "nice", 5, "p1", "u2", 0, 0⟩], []⟩
      ⟨some "again", some 4, some "p1", some "u2"⟩ "r2" 1 =
    (.error (.integrityError "unique_user_place_review"),
     ⟨[⟨"u1", "Ann", "Lee", "a@b.com", "", false, 0, 0⟩,
       ⟨"u2", "Bob", "Kim", "b@b.com", "", false, 0, 0⟩],
      [⟨"p1", "House", "", 10, none, none, "u1", [], 0, 0⟩],
      [⟨"r1", "nice", 5, "p1", "u2", 0, 0⟩], []⟩) :=
  (create_review_checks _ _ "r2" 1 (by decide) ⟨4, rfl, by decide, by decide⟩).2.2.2
    ⟨"p1", "House", "", 10, none, none, "u1", [], 0, 0⟩
    ⟨"u2", "Bob", "Kim", "b@b.com", "", false, 0, 0⟩
    (by decide) (by decide) (by decide) (by decide) (by decide) (by decide)

/-! ### C2: global uniqueness of amenity names -/

/-- Lemma: `Amenity` construction succeeds on a well-formed name. -/
theorem mkAmenity_ok (n description aid : String) (now : Nat)
    (hne : n ≠ "") (hlen : n.length ≤ 50) :
    mkAmenity (some n) description aid now = .ok ⟨aid, n, description, now, now⟩ := by
  unfold mkAmenity
  simp only [Option.getD_some]
  rw [if_neg (by push_neg; exact ⟨hne, by omega⟩)]

/-- Lemma: `create_amenity` preserves pairwise distinctness of amenity names and ids:
the insert only happens when neither the name nor the primary key collides
with a stored row. -/
theorem create_amenity_inv (s : FacadeState) (d : AmenityCreateData)
    (aid : String) (now : Nat)
    (h : amenityNamesUnique s.amenities ∧ amenityIdsUnique s.amenities) :
    amenityNamesUnique (create_amenity s d aid now).2.amenities
    ∧ amenityIdsUnique (create_amenity s d aid now).2.amenities := by
  unfold create_amenity
  cases hmk : mkAmenity d.name (d.description.getD "") aid now with
  | error e => exact h
  | ok a =>
    dsimp only
    by_cases hname : (s.amenities.any (fun x => x.name == a.name)) = true
    · rw [if_pos hname]
      exact h
    · rw [if_neg hname]
      by_cases hid : (s.amenities.any (fun x => x.id == a.id)) = true
      · rw [if_pos hid]
        exact h
      · rw [if_neg hid]
        rw [Bool.not_eq_true, List.any_eq_false] at hname hid
        constructor
        · unfold amenityNamesUnique
          rw [List.pairwise_append]
          refine ⟨h.1, List.pairwise_singleton _ _, ?_⟩
          intro x hx y hy
          simp only [List.mem_singleton] at hy
          subst hy
          have := hname x hx
          simpa using this
        · unfold amenityIdsUnique
          rw [List.pairwise_append]
          refine ⟨h.2, List.pairwise_singleton _ _, ?_⟩
          intro x hx y hy
          simp only [List.mem_singleton] at hy
          subst hy
          have := hid x hx
          simpa using this

/-- Lemma: `update_amenity` preserves pairwise distinctness of amenity names and
ids: the commit is refused when the new name collides with another row, and
the id of the updated row is unchanged. -/
theorem update_amenity_inv (s : FacadeState) (aid : String) (d : AmenityUpdateData)
    (now : Nat)
    (h : amenityNamesUnique s.amenities ∧ amenityIdsUnique s.amenities) :
    amenityNamesUnique (update_amenity s aid d now).2.amenities
    ∧ amenityIdsUnique (update_amenity s aid d now).2.amenities := by
  unfold update_amenity
  cases hfind : s.amenities.find? (fun a => a.id == aid) with
  | none => exact h
  | some a =>
    dsimp only
    by_cases hconf :
        (s.amenities.any (fun x => !(x.id == a.id) && x.name == d.name.getD a.name)) = true
    · rw [if_pos hconf]
      exact h
    · rw [if_neg hconf]
      rw [Bool.not_eq_true, List.any_eq_false] at hconf
      have hcomb := List.Pairwise.and h.1 h.2
      constructor
      · unfold amenityNamesUnique
        rw [List.pairwise_map]
        refine List.Pairwise.imp_of_mem ?_ hcomb
        intro x y hxm hym hxy
        by_cases hx : (x.id == a.id) = true
        · rw [if_pos hx]
          by_cases hy : (y.id == a.id) = true
          · exact absurd ((beq_iff_eq.mp hx).trans (beq_iff_eq.mp hy).symm) hxy.2
          · rw [if_neg hy]
            have := hconf y hym
            simp only [Bool.and_eq_true, Bool.not_eq_true', beq_eq_false_iff_ne,
              ne_eq, beq_iff_eq, not_and] at this
            intro hcontra
            exact this (by simpa using hy) hcontra.symm
        · rw [if_neg hx]
          by_cases hy : (y.id == a.id) = true
          · rw [if_pos hy]
            have := hconf x hxm
            simp only [Bool.and_eq_true, Bool.not_eq_true', beq_eq_false_iff_ne,
              ne_eq, beq_iff_eq, not_and] at this
            exact this (by simpa using hx)
          · rw [if_neg hy]
            exact hxy.1
      · unfold amenityIdsUnique
        rw [List.pairwise_map]
        refine List.Pairwise.imp_of_mem ?_ hcomb
        intro x y hxm hym hxy
        have hxid : (if (x.id == a.id) = true then
            ({ a with name := d.name.getD a.name,
                      description := d.description.getD a.description,
                      updated_at := now } : Amenity) else x).id = x.id := by
          by_cases hx : (x.id == a.id) = true
          · rw [if_pos hx]
            exact (beq_iff_eq.mp hx).symm
          · rw [if_neg hx]
        have hyid : (if (y.id == a.id) = true then
            ({ a with name := d.name.getD a.name,
                      description := d.description.getD a.description,
                      updated_at := now } : Amenity) else y).id = y.id := by
          by_cases hy : (y.id == a.id) = true
          · rw [if_pos hy]
            exact (beq_iff_eq.mp hy).symm
          · rw [if_neg hy]
        rw [hxid, hyid]
        exact hxy.2

/-- Lemma: `delete_amenity` preserves pairwise distinctness of amenity names and
ids (it only removes rows). -/
theorem delete_amenity_inv (s : FacadeState) (aid : String)
    (h : amenityNamesUnique s.amenities ∧ amenityIdsUnique s.amenities) :
    amenityNamesUnique (delete_amenity s aid).2.amenities
    ∧ amenityIdsUnique (delete_amenity s aid).2.amenities := by
  unfold delete_amenity
  by_cases hex : (s.amenities.any (fun a => a.id == aid)) = true
  · rw [if_pos hex]
    exact ⟨h.1.filter _, h.2.filter _⟩
  · rw [if_neg hex]
    exact h

/-- Every sequence of amenity-writing facade operations preserves pairwise
distinctness of amenity names and ids. -/
theorem runAmenityOps_inv (ops : List AmenityOp) (s : FacadeState)
    (h : amenityNamesUnique s.amenities ∧ amenityIdsUnique s.amenities) :
    amenityNamesUnique (runAmenityOps s ops).amenities
    ∧ amenityIdsUnique (runAmenityOps s ops).amenities := by
  induction ops generalizing s with
  | nil => exact h
  | cons op rest ih =>
    simp only [runAmenityOps, List.foldl_cons]
    cases op with
    | create d aid now => exact ih _ (create_amenity_inv s d aid now h)
    | update aid d now => exact ih _ (update_amenity_inv s aid d now h)
    | del aid => exact ih _ (delete_amenity_inv s aid h)

/-- C2: when an Amenity with the requested (well-formed) name is already
stored, `HBnBFacade.create_amenity` reports the duplicate-uniqueness error —
the `amenities.name` unique constraint enforced when the facade persists via
`amenity_repo.add` — and the store is returned unchanged, so no second Amenity
with that name is persisted; moreover, starting from the empty store, amenity
names are pairwise distinct after every sequence of amenity-writing facade
operations. -/
theorem create_amenity_name_unique (s : FacadeState) (d : AmenityCreateData)
    (aid : String) (now : Nat) (n : String)
    (hn : d.name = some n) (hne : n ≠ "") (hlen : n.length ≤ 50)
    (a0 : Amenity) (ha0 : a0 ∈ s.amenities) (hname0 : a0.name = n) :
    create_amenity s d aid now = (.error (.integrityError "amenities.name"), s)
    ∧ ∀ ops : List AmenityOp, amenityNamesUnique (runAmenityOps initState ops).amenities := by
  constructor
  · unfold create_amenity
    rw [hn, mkAmenity_ok n (d.description.getD "") aid now hne hlen]
    dsimp only
    rw [if_pos (by rw [List.any_eq_true]; exact ⟨a0, ha0, by simp [hname0]⟩)]
  · intro ops
    exact (runAmenityOps_inv ops initState
      (by constructor <;> simp [initState, amenityNamesUnique, amenityIdsUnique])).1

/-- C2 witness: with an amenity `"wifi"` stored, a second `create_amenity`
with name `"wifi"` is refused by the unique constraint and the store is
unchanged. -/
theorem create_amenity_name_unique_witness :
    create_amenity ⟨[], [], [], [⟨"a1", "wifi", "", 0, 0⟩]⟩
      ⟨some "wifi", none⟩ "a2" 1 =
    (.error (.integrityError "amenities.name"),
     ⟨[], [], [], [⟨"a1", "wifi", "", 0, 0⟩]⟩) :=
  (create_amenity_name_unique _ _ "a2" 1 "wifi" rfl (by decide) (by decide)
    ⟨"a1", "wifi", "", 0, 0⟩ (by decide) rfl).1

/-! ### C7: the `update_user` contract -/

/-- C7: `HBnBFacade.update_user` (a) returns absent and leaves the store
untouched when the target id does not exist; (b) raises the duplicate error —
before any mutation — exactly when the payload supplies an email differing
from the current one that another stored account holds; (c) otherwise applies
only the supplied fields: the stored user keeps every unsupplied field, the
password digest becomes the hash of the supplied plaintext exactly when a
password is supplied and is untouched otherwise, and `updated_at` is
refreshed by `save()`; and (d) a supplied email equal to the current one never
triggers the uniqueness check. -/
theorem update_user_contract (s : FacadeState) (uid : String) (d : UserUpdateData)
    (now : Nat) :
    (s.users.find? (fun u => u.id == uid) = none →
       update_user s uid d now = (.ok none, s))
  ∧ (∀ user e, s.users.find? (fun u => u.id == uid) = some user →
       d.email = some e → e ≠ user.email → (∃ x ∈ s.users, x.email = e) →
       update_user s uid d now = (.error (.valueError "Email already registered"), s))
  ∧ (∀ user, s.users.find? (fun u => u.id == uid) = some user →
       emailConflict s.users user d.email = false →
       ∃ u3, update_user s uid d now =
           (.ok (some u3),
            { s with users := s.users.map (fun x => if x.id == user.id then u3 else x) })
         ∧ u3.email = d.email.getD user.email
         ∧ u3.password = (match d.password with
                          | some p => hash_password p
                          | none => user.password)
         ∧ u3.first_name = d.first_name.getD user.first_name
         ∧ u3.last_name = d.last_name.getD user.last_name
         ∧ u3.is_admin = d.is_admin.getD user.is_admin
         ∧ u3.id = user.id ∧ u3.created_at = user.created_at ∧ u3.updated_at = now)
  ∧ (∀ user, s.users.find? (fun u => u.id == uid) = some user →
       d.email = some user.email →
       emailConflict s.users user d.email = false) := by
  refine ⟨?_, ?_, ?_, ?_⟩
  · intro h
    unfold update_user
    rw [h]
  · intro user e hfind he hne hex
    have hconf : emailConflict s.users user d.email = true := by
      unfold emailConflict
      rw [he]
      simp only [Bool.and_eq_true]
      constructor
      · simp [hne]
      · rw [List.any_eq_true]
        obtain ⟨x, hx, hxe⟩ := hex
        exact ⟨x, hx, by simp [hxe]⟩
    unfold update_user
    rw [hfind]
    dsimp only
    rw [if_pos hconf]
  · intro user hfind hconf
    unfold update_user
    rw [hfind]
    dsimp only
    rw [if_neg (by simp [hconf])]
    cases hp : d.password with
    | some p => exact ⟨_, rfl, rfl, rfl, rfl, rfl, rfl, rfl, rfl, rfl⟩
    | none => exact ⟨_, rfl, rfl, rfl, rfl, rfl, rfl, rfl, rfl, rfl⟩
  · intro user hfind he
    unfold emailConflict
    rw [he]
    simp

/-- C7 witness: updating user `"u1"` to the email another account already
holds is refused with the duplicate error, the store unchanged. -/
theorem update_user_contract_witness :
    update_user
      ⟨[⟨"u1", "Ann", "Lee", "a@b.com", "", false, 0, 0⟩,
        ⟨"u2", "Bob", "Kim", "b@b.com", "", false, 0, 0⟩], [], [], []⟩
      "u1" ⟨none, none, some "b@b.com", none, none⟩ 1 =
    (.error (.valueError "Email already registered"),
     ⟨[⟨"u1", "Ann", "Lee", "a@b.com", "", false, 0, 0⟩,
       ⟨"u2", "Bob", "Kim", "b@b.com", "", false, 0, 0⟩], [], [], []⟩) :=
  (update_user_contract _ "u1" _ 1).2.1
    ⟨"u1", "Ann", "Lee", "a@b.com", "", false, 0, 0⟩ "b@b.com"
    (by decide) rfl (by decide)
    ⟨⟨"u2", "Bob", "Kim", "b@b.com", "", false, 0, 0⟩, by decide, rfl⟩

/-! ### C8: the generic repository `update` contract -/

/-- Lookup after an in-place overwrite of key `k`: the value at `k` becomes
`v` when the key was present, every other key is untouched. -/
theorem lookup_map_set (l : List (String × Value)) (k k2 : String) (v : Value) :
    (l.map (fun kv => if kv.1 == k then (kv.1, v) else kv)).lookup k2 =
      if k2 = k then (l.lookup k).map (fun _ => v) else l.lookup k2 := by
  induction l with
  | nil =>
    simp only [List.map_nil, List.lookup_nil, Option.map_none']
    split <;> rfl
  | cons kv rest ih =>
    rw [List.map_cons]
    by_cases hh : (kv.1 == k) = true
    · rw [if_pos hh]
      have hk : kv.1 = k := beq_iff_eq.mp hh
      by_cases h2 : k2 = k
      · subst h2
        have hb : (k2 == kv.1) = true := beq_iff_eq.mpr hk.symm
        rw [if_pos rfl]
        simp only [List.lookup, hb]
        rfl
      · have hb : (k2 == kv.1) = false :=
          beq_eq_false_iff_ne.mpr (fun hc => h2 (hc.trans hk))
        rw [if_neg h2]
        simp only [List.lookup, hb, ih, if_neg h2]
    · rw [if_neg hh]
      have hk : kv.1 ≠ k := fun hc => hh (beq_iff_eq.mpr hc)
      by_cases h2 : k2 = k
      · subst h2
        have hb : (k2 == kv.1) = false :=
          beq_eq_false_iff_ne.mpr (fun hc => hk hc.symm)
        rw [if_pos rfl]
        simp only [List.lookup, hb, ih]
        simp
      · by_cases h3 : (k2 == kv.1) = true
        · rw [if_neg h2]
          simp only [List.lookup, h3]
        · have hb : (k2 == kv.1) = false := by
            rw [Bool.not_eq_true] at h3
            exact h3
          rw [if_neg h2]
          simp only [List.lookup, hb, ih, if_neg h2]

/-- Lookup in `l ++ [(k, v)]` at `k`: `some v` when `k` is absent from `l`. -/
theorem lookup_append_single_self (l : List (String × Value)) (k : String) (v : Value)
    (h : l.lookup k = none) : (l ++ [(k, v)]).lookup k = some v := by
  induction l with
  | nil => simp [List.lookup]
  | cons kv rest ih =>
    rw [List.cons_append]
    cases hb : (k == kv.1) with
    | true =>
      simp only [List.lookup, hb] at h
      simp at h
    | false =>
      simp only [List.lookup, hb] at h ⊢
      exact ih h

/-- Lookup in `l ++ [(k, v)]` at a key other than `k` equals lookup in `l`. -/
theorem lookup_append_single_ne (l : List (String × Value)) (k k2 : String) (v : Value)
    (h : k2 ≠ k) : (l ++ [(k, v)]).lookup k2 = l.lookup k2 := by
  induction l with
  | nil => simp [List.lookup, beq_eq_false_iff_ne.mpr h]
  | cons kv rest ih =>
    by_cases hh : (k2 == kv.1) = true
    · simp [List.lookup, hh]
    · simp [List.lookup, hh, ih]

/-- Lemma: `setattr` sets the attribute it names. -/
theorem pyGetattr_pySetattr_same (o : PyObj) (k : String) (v : Value) :
    pyGetattr (pySetattr o k v) k = some v := by
  unfold pyGetattr pySetattr pyHasattr
  by_cases h : (o.attrs.lookup k).isSome = true
  · rw [if_pos h]
    dsimp only
    rw [lookup_map_set, if_pos rfl]
    obtain ⟨w, hw⟩ := Option.isSome_iff_exists.mp h
    rw [hw]
    rfl
  · rw [if_neg h]
    dsimp only
    rw [Option.not_isSome_iff_eq_none] at h
    exact lookup_append_single_self _ _ _ h

/-- Lemma: `setattr` leaves every other attribute untouched. -/
theorem pyGetattr_pySetattr_ne (o : PyObj) (k k2 : String) (v : Value)
    (h : k2 ≠ k) : pyGetattr (pySetattr o k v) k2 = pyGetattr o k2 := by
  unfold pyGetattr pySetattr
  by_cases hh : pyHasattr o k = true
  · rw [if_pos hh]
    dsimp only
    rw [lookup_map_set, if_neg h]
  · rw [if_neg hh]
    dsimp only
    exact lookup_append_single_ne _ _ _ _ h

/-- The `setattr` loop shared by both `update` implementations touches no
attribute outside the supplied dictionary keys. -/
theorem applyFields_lookup_ne (data : List (String × Value)) (o : PyObj) (k : String)
    (h : ∀ kv ∈ data, kv.1 ≠ k) :
    pyGetattr (applyFields o data) k = pyGetattr o k := by
  induction data generalizing o with
  | nil => rfl
  | cons kv rest ih =>
    have step : applyFields o (kv :: rest) =
        applyFields (if pyHasattr o kv.1 then pySetattr o kv.1 kv.2 else o) rest := rfl
    rw [step, ih _ (fun x hx => h x (List.mem_cons_of_mem _ hx))]
    by_cases hh : pyHasattr o kv.1 = true
    · rw [if_pos hh]
      exact pyGetattr_pySetattr_ne _ _ _ _ (Ne.symm (h kv (List.mem_cons_self _ _)))
    · rw [if_neg hh]

/-- C8 counterexample: the two `Repository.update` implementations disagree on
the same inputs whenever nothing is effectively written.  On the empty update
dictionary, and equally on a dictionary that sets a field to the value it
already holds, the in-memory implementation still refreshes `updated_at`
(through the unconditional `save()` inside `BaseModel.update`) while the
durable-store implementation returns the entity fully untouched: flush
net-change detection finds no column whose new value differs from the stored
one, no UPDATE is issued and the `onupdate` hook never fires.  So the claim
that the contract — including the `updated_at` refresh — holds identically
for both implementations on every dictionary is false. -/
theorem repository_update_noop_divergence :
    ((inmemory_update [("x", ⟨[("id", .str "x"), ("f", .str "v"), ("updated_at", .int 0)]⟩)]
        "x" [] 5).1 =
      some ⟨[("id", .str "x"), ("f", .str "v"), ("updated_at", .int 5)]⟩
    ∧ (sqlalchemy_update [("x", ⟨[("id", .str "x"), ("f", .str "v"), ("updated_at", .int 0)]⟩)]
        "x" [] 5).1 =
      some ⟨[("id", .str "x"), ("f", .str "v"), ("updated_at", .int 0)]⟩
    ∧ inmemory_update [("x", ⟨[("id", .str "x"), ("f", .str "v"), ("updated_at", .int 0)]⟩)]
        "x" ([] : List (String × Value)) 5 ≠
      sqlalchemy_update [("x", ⟨[("id", .str "x"), ("f", .str "v"), ("updated_at", .int 0)]⟩)]
        "x" [] 5)
    ∧ ((inmemory_update [("x", ⟨[("id", .str "x"), ("f", .str "v"), ("updated_at", .int 0)]⟩)]
        "x" [("f", .str "v")] 5).1 =
      some ⟨[("id", .str "x"), ("f", .str "v"), ("updated_at", .int 5)]⟩
    ∧ (sqlalchemy_update [("x", ⟨[("id", .str "x"), ("f", .str "v"), ("updated_at", .int 0)]⟩)]
        "x" [("f", .str "v")] 5).1 =
      some ⟨[("id", .str "x"), ("f", .str "v"), ("updated_at", .int 0)]⟩
    ∧ inmemory_update [("x", ⟨[("id", .str "x"), ("f", .str "v"), ("updated_at", .int 0)]⟩)]
        "x" [("f", .str "v")] 5 ≠
      sqlalchemy_update [("x", ⟨[("id", .str "x"), ("f", .str "v"), ("updated_at", .int 0)]⟩)]
        "x" [("f", .str "v")] 5) := by
  exact ⟨⟨by decide, by decide, by decide⟩, ⟨by decide, by decide, by decide⟩⟩

/-- C8 (amended): for every store, id and update dictionary that supplies at
least one field whose new value differs from the one the entity stores (and
that does not name the system-managed `updated_at` column), the two
`Repository.update` implementations behave identically: an unknown id yields
absent with the store unchanged; otherwise both return the same updated
entity, in which `updated_at` is refreshed to the current time and every
attribute outside the dictionary keys is unchanged. -/
theorem repository_update_contract (storage : List (String × PyObj)) (oid : String)
    (data : List (String × Value)) (now : Nat)
    (hstamp : ∀ kv ∈ data, kv.1 ≠ "updated_at") :
    (storage.lookup oid = none →
       inmemory_update storage oid data now = (none, storage)
       ∧ sqlalchemy_update storage oid data now = (none, storage))
  ∧ (∀ o, storage.lookup oid = some o →
       (∃ kv ∈ data, pyGetattr (applyFields o data) kv.1 ≠ pyGetattr o kv.1) →
       inmemory_update storage oid data now = sqlalchemy_update storage oid data now
       ∧ ∃ o2, (inmemory_update storage oid data now).1 = some o2
           ∧ pyGetattr o2 "updated_at" = some (.int now)
           ∧ ∀ k, (∀ kv ∈ data, kv.1 ≠ k) → k ≠ "updated_at" →
               pyGetattr o2 k = pyGetattr o k) := by
  constructor
  · intro h
    constructor
    · unfold inmemory_update
      rw [h]
    · unfold sqlalchemy_update
      rw [h]
  · intro o hfind hex
    have hdirty :
        (data.any (fun kv => !(pyGetattr (applyFields o data) kv.1 == pyGetattr o kv.1))) = true := by
      rw [List.any_eq_true]
      obtain ⟨kv, hkv, hne⟩ := hex
      refine ⟨kv, hkv, ?_⟩
      rw [Bool.not_eq_true', beq_eq_false_iff_ne]
      exact hne
    have hts :
        (!(pyGetattr (applyFields o data) "updated_at" == pyGetattr o "updated_at")) = false := by
      rw [applyFields_lookup_ne data o "updated_at" hstamp]
      simp
    constructor
    · unfold inmemory_update sqlalchemy_update
      rw [hfind]
      dsimp only
      rw [hdirty, hts]
      simp
    · refine ⟨pySetattr (applyFields o data) "updated_at" (.int now), ?_, ?_, ?_⟩
      · unfold inmemory_update
        rw [hfind]
      · exact pyGetattr_pySetattr_same _ _ _
      · intro k hk hkts
        rw [pyGetattr_pySetattr_ne _ _ _ _ hkts]
        exact applyFields_lookup_ne data o k hk

/-- C8 amended-claim witness: an update that changes one stored field is
handled identically by both implementations, with `updated_at` refreshed and
the untouched attribute preserved. -/
theorem repository_update_contract_witness :
    (inmemory_update [("x", ⟨[("id", .str "x"), ("f", .str "v"), ("updated_at", .int 0)]⟩)]
        "x" [("f", .str "w")] 5 =
      sqlalchemy_update [("x", ⟨[("id", .str "x"), ("f", .str "v"), ("updated_at", .int 0)]⟩)]
        "x" [("f", .str "w")] 5)
    ∧ ∃ o2, (inmemory_update
          [("x", ⟨[("id", .str "x"), ("f", .str "v"), ("updated_at", .int 0)]⟩)]
          "x" [("f", .str "w")] 5).1 = some o2
        ∧ pyGetattr o2 "updated_at" = some (.int 5)
        ∧ ∀ k, (∀ kv ∈ [(("f" : String), Value.str "w")], kv.1 ≠ k) → k ≠ "updated_at" →
            pyGetattr o2 k =
              pyGetattr ⟨[("id", .str "x"), ("f", .str "v"), ("updated_at", .int 0)]⟩ k :=
  (repository_update_contract _ "x" _ 5
      (by intro kv hkv; simp at hkv; simp [hkv])).2
    ⟨[("id", .str "x"), ("f", .str "v"), ("updated_at", .int 0)]⟩
    (by decide) ⟨("f", .str "w"), by decide, by decide⟩

end HBnB
